import Mathlib

/-!
Verification of the `AWSOpenSearch` vector-store adapter
(`mem0/vector_stores/aws_opensearch.py`): a shallow embedding of the
client's request construction, bulk-response inspection and
index/document lifecycle, together with theorems settling the spec's
claims about it.

Python dict/list request bodies are embedded as a `JSON` value type whose
objects are insertion-ordered key/value lists (Python dicts preserve
insertion order). Vector components and scores are embedded as integers:
the adapter never computes with them, it only marshals them, so the
scalar type is inessential to every claim.
-/

namespace Mem0.AWSOpenSearch

/-- JSON-like values as sent in request bodies. Objects keep the key
insertion order of the Python dicts they embed. -/
inductive JSON where
  | null : JSON
  | str : String → JSON
  | int : Int → JSON
  | arr : List JSON → JSON
  | obj : List (String × JSON) → JSON

/-- Field lookup in a JSON object (`none` on non-objects), mirroring
Python's `d[key]` / `d.get(key)` on a dict. -/
def jlook (j : JSON) (key : String) : Option JSON :=
  match j with
  | .obj fields => fields.lookup key
  | _ => none

/-- The `distance_mapping` dict of `create_col` (source lines 133-137):
caller metric name to OpenSearch `space_type`. -/
def distance_mapping : List (String × String) :=
  [("cosine", "cosinesimil"), ("l2", "l2"), ("dotProduct", "innerproduct")]

/-- `distance_mapping.get(distance, "cosinesimil")` (source line 139). -/
def spaceType (distance : String) : String :=
  (distance_mapping.lookup distance).getD "cosinesimil"

/-- The `index_body` dict built by `create_col` (source lines 141-170),
verbatim. -/
def index_body (vector_size : Int) (space_type : String) : JSON :=
  .obj [
    ("mappings", .obj [
      ("properties", .obj [
        ("vector", .obj [
          ("type", .str "knn_vector"),
          ("dimension", .int vector_size),
          ("method", .obj [
            ("name", .str "hnsw"),
            ("space_type", .str space_type),
            ("engine", .str "nmslib"),
            ("parameters", .obj [
              ("ef_construction", .int 128),
              ("m", .int 16)])])]),
        ("payload", .obj [
          ("type", .str "object")])])]),
    ("settings", .obj [
      ("index", .obj [
        ("number_of_shards", .int 1),
        ("number_of_replicas", .int 1),
        ("knn", .str "true"),
        ("knn.algo_param.ef_search", .int 32)])])]

/-- The index-creation body `create_col` passes to `_create_index_safe`
for a given `vector_size` and `distance` (source lines 139-172). -/
def createColBody (vector_size : Int) (distance : String) : JSON :=
  index_body vector_size (spaceType distance)

/-- Extracts `mappings.properties.vector.method.space_type` from an
index-creation body. -/
def bodySpaceType (body : JSON) : Option JSON :=
  (jlook body "mappings").bind fun m =>
  (jlook m "properties").bind fun p =>
  (jlook p "vector").bind fun v =>
  (jlook v "method").bind fun meth =>
  jlook meth "space_type"

/-- A 404 from the backing engine: the only backend failure cause the
claims about `get`/`delete`/`update` distinguish. -/
inductive BackendErr where
  | notFound
deriving DecidableEq, Repr

/-- One entry of a bulk response's `items` array: its `index` object,
carrying the item's `_id` and, when the item failed, an `error` object
(embedded here as its reason string). -/
structure BulkItem where
  id : Option String
  error : Option String
deriving DecidableEq, Repr

/-- The engine's bulk response: the top-level `errors` flag and the
per-item outcomes. -/
structure BulkResponse where
  errors : Bool
  items : List BulkItem
deriving DecidableEq, Repr

/-- Errors the client can surface. `invalidDimensionality` and
`invalidArgument` come from the spec's error taxonomy; they are included
so that the absence of a code path signalling them is statable.
`getFailed`/`deleteFailed`/`updateFailed` embed the client's
re-raising of a backend exception with an added context string. -/
inductive VSError where
  | invalidDimensionality
  | invalidArgument
  | bulkWriteFailed (failing : List BulkItem)
  | getFailed (cause : BackendErr)
  | deleteFailed (cause : BackendErr)
  | updateFailed (cause : BackendErr)

/-- A stored document: the `vector` and `payload` fields of the indexed
source, kept as the JSON values the client wrote. -/
structure Doc where
  vector : JSON
  payload : JSON

/-- Backend state visible to this client: whether the target index
exists (and with which creation body), and the documents it holds keyed
by id. -/
structure OSState where
  index : Option JSON
  docs : List (String × Doc)

/-- Result of a provisioning call: the backend state afterwards, how many
index-creation calls were issued to the backend, and the outcome. -/
structure CreateResult where
  state : OSState
  creationCalls : Nat
  result : Except VSError Unit

/-- `_create_index_safe` (source lines 174-192): checks
`indices.exists` first; when the index exists it logs and returns
without issuing a creation call, otherwise it issues exactly one
`indices.create` call with the given body. -/
def create_index_safe (st : OSState) (body : JSON) : CreateResult :=
  match st.index with
  | some _ => ⟨st, 0, .ok ()⟩
  | none => ⟨{ st with index := some body }, 1, .ok ()⟩

/-- `create_col` (source lines 124-172): builds the index body from the
requested dimension and metric and delegates to `_create_index_safe`.
There is no validation of `vector_size`. -/
def create_col (st : OSState) (vector_size : Int) (distance : String) : CreateResult :=
  create_index_safe st (createColBody vector_size distance)

/-- Python's three-way `zip`: truncates at the shortest input. -/
def zip3 {α β γ : Type} : List α → List β → List γ → List (α × β × γ)
  | a :: as, b :: bs, c :: cs => (a, b, c) :: zip3 as bs cs
  | _, _, _ => []

/-- The `actions` list built by `insert` (source lines 212-225): for each
(vector, payload, id) triple, an action line
`{"index": {"_index": name, "_id": id-or-null}}` followed by a document
line `{"vector": [...], "payload": {...}}`. -/
def insertActions (indexName : String) (vectors : List (List Int))
    (payloads : List JSON) (ids : List (Option String)) : List JSON :=
  ((zip3 vectors payloads ids).map fun t =>
    [ JSON.obj [("index", .obj [("_index", .str indexName),
        ("_id", match t.2.2 with | some s => .str s | none => .null)])],
      JSON.obj [("vector", .arr (t.1.map .int)), ("payload", t.2.1)] ]).flatten

/-- The failing entries of a bulk response, as `insert` collects them
(source line 230): the items whose `index` object carries an `error`. -/
def failingItems (resp : BulkResponse) : List BulkItem :=
  resp.items.filter fun item => item.error.isSome

/-- The bulk-response inspection of `insert` (source lines 229-231):
when the response's `errors` flag is set, the call fails with the
aggregated list of failing items; otherwise it returns successfully. -/
def bulkInspect (resp : BulkResponse) : Except VSError Unit :=
  if resp.errors then .error (.bulkWriteFailed (failingItems resp)) else .ok ()

/-- Result of an `insert` call: how many bulk requests were issued, the
action lines of the request body, and the outcome. -/
structure InsertCall where
  bulkCalls : Nat
  body : List JSON
  result : Except VSError Unit

/-- `insert` (source lines 193-231). `if not payloads` / `if not ids`
replace a `None` or empty argument by per-vector defaults (Python
truthiness). The engine's bulk response is passed in as `resp`: the
client always issues exactly one bulk request and then inspects the
response. -/
def insert (indexName : String) (vectors : List (List Int))
    (payloads : Option (List JSON)) (ids : Option (List (Option String)))
    (resp : BulkResponse) : InsertCall :=
  let payloads' := match payloads with
    | none => vectors.map fun _ => JSON.obj []
    | some ps => if ps.isEmpty then vectors.map fun _ => JSON.obj [] else ps
  let ids' := match ids with
    | none => vectors.map fun _ => none
    | some l => if l.isEmpty then vectors.map fun _ => none else l
  { bulkCalls := 1,
    body := insertActions indexName vectors payloads' ids',
    result := bulkInspect resp }

/-- The `knn_query` dict of `search` (source lines 257-262). -/
def knnQuery (query : List Int) (limit : Int) : JSON :=
  .obj [("vector", .obj [("vector", .arr (query.map .int)), ("k", .int limit)])]

/-- The `search_query` request body built by `search` (source lines
256-283). `if filters:` is Python truthiness: a `None` or empty filter
mapping takes the plain-knn branch; a non-empty one takes the
bool/must/filter branch, with one `term` condition per entry in
insertion order. -/
def searchBody (query : List Int) (limit : Int)
    (filters : Option (List (String × JSON))) : JSON :=
  let knn_query := knnQuery query limit
  let truthy := match filters with
    | some fs => !fs.isEmpty
    | none => false
  if truthy then
    let fs := filters.getD []
    let filter_conditions := fs.map fun kv =>
      JSON.obj [("term", .obj [("payload." ++ kv.1, kv.2)])]
    .obj [("size", .int limit),
          ("query", .obj [("bool", .obj [
            ("must", .arr [.obj [("knn", knn_query)]]),
            ("filter", .arr filter_conditions)])])]
  else
    .obj [("size", .int limit), ("query", .obj [("knn", knn_query)])]

/-- The `OutputData` model of the adapter (source lines 21-24). -/
structure OutputData where
  id : Option String
  score : Option Int
  payload : Option JSON

/-- One hit of an engine search response: `_id`, `_score` and the
`payload` field of `_source`. -/
structure Hit where
  id : String
  score : Int
  payload : JSON

/-- The engine's document lookup behind `client.get`: the stored document
for the id, or a 404 when no document with that id exists. -/
def backendGet (st : OSState) (id : String) : Except BackendErr Doc :=
  match st.docs.lookup id with
  | some d => .ok d
  | none => .error .notFound

/-- `get` (source lines 341-355): a successful engine lookup is returned
as `OutputData(id, score=None, payload)`; an engine exception is caught
and re-raised as a wrapped "Get operation failed" error carrying the
cause. -/
def get (st : OSState) (id : String) : Except VSError OutputData :=
  match backendGet st id with
  | .ok d => .ok { id := some id, score := none, payload := some d.payload }
  | .error e => .error (.getFailed e)

/-- `delete` (source lines 300-310): the engine deletes the document with
the given id, raising a 404 when it is absent; the client passes that
through as a wrapped "Delete operation failed" error. -/
def delete (st : OSState) (id : String) : OSState × Except VSError Unit :=
  match st.docs.lookup id with
  | some _ => ({ st with docs := st.docs.filter fun p => p.1 != id }, .ok ())
  | none => (st, .error (.deleteFailed .notFound))

/-- The `doc` dict built by `update` (source lines 326-330): it gets a
`vector` field exactly when a vector was supplied, and a `payload` field
exactly when a payload was supplied, in that order. -/
def updateDocFields (vector : Option (List Int)) (payload : Option JSON) :
    List (String × JSON) :=
  (match vector with
    | some v => [("vector", JSON.arr (v.map .int))]
    | none => []) ++
  (match payload with
    | some p => [("payload", p)]
    | none => [])

/-- The engine's partial-document update behind `client.update` with body
`{"doc": fields}`: fields present in `doc` overwrite the stored document's
fields, absent ones are kept; a missing id is a 404. -/
def backendUpdate (st : OSState) (id : String)
    (fields : List (String × JSON)) : Except BackendErr OSState :=
  match st.docs.lookup id with
  | none => .error .notFound
  | some d =>
    let d' : Doc := { vector := (fields.lookup "vector").getD d.vector,
                      payload := (fields.lookup "payload").getD d.payload }
    .ok { st with docs := st.docs.map fun p => if p.1 == id then (p.1, d') else p }

/-- `update` (source lines 312-339): builds the `doc` dict from the
supplied optional fields and sends `{"doc": doc}` to the engine; an
engine exception is re-raised as a wrapped "Update operation failed"
error. -/
def update (st : OSState) (id : String) (vector : Option (List Int))
    (payload : Option JSON) : OSState × Except VSError Unit :=
  match backendUpdate st id (updateDocFields vector payload) with
  | .ok st' => (st', .ok ())
  | .error e => (st, .error (.updateFailed e))

/-- The query value built by `list` (source lines 405-410): `match_all`,
replaced by a bool/must of per-field `term` conditions when `filters` is
truthy (non-`None` and non-empty). -/
def listQueryValue (filters : Option (List (String × JSON))) : JSON :=
  let truthy := match filters with
    | some fs => !fs.isEmpty
    | none => false
  if truthy then
    let fs := filters.getD []
    .obj [("bool", .obj [("must", .arr (fs.map fun kv =>
      JSON.obj [("term", .obj [("payload." ++ kv.1, kv.2)])]))])]
  else
    .obj [("match_all", .obj [])]

/-- The full request body built by `list` (source lines 405-412): the
query, plus a `size` field appended when `limit` is truthy (non-`None`
and non-zero). -/
def listQuery (filters : Option (List (String × JSON)))
    (limit : Option Int) : JSON :=
  let truthy := match limit with
    | some k => k != 0
    | none => false
  if truthy then
    .obj [("query", listQueryValue filters), ("size", .int (limit.getD 0))]
  else
    .obj [("query", listQueryValue filters)]

/-- The value `list` returns from a search response (source lines
418-421): the per-hit `OutputData` sequence, wrapped in a singleton
outer list (`return [results]`). -/
def listResults (hits : List Hit) : List (List OutputData) :=
  [hits.map fun h => { id := some h.id, score := some h.score, payload := some h.payload }]

/-- A backend state in which the target index does not exist yet and no
document is stored. -/
def freshState : OSState := ⟨none, []⟩

/-- C1: provisioning is idempotent. Starting from a state without the
index, for every dimensionality d > 0 and metric m, running `create_col`
twice issues exactly one index-creation call to the backend in total,
and the second call returns without error and leaves the backend state
exactly as the first call left it. -/
theorem provision_idempotent (st : OSState) (d : Int) (m : String)
    (hfresh : st.index = none) (_hd : 0 < d) :
    (create_col st d m).creationCalls
      + (create_col (create_col st d m).state d m).creationCalls = 1 ∧
    (create_col (create_col st d m).state d m).result = .ok () ∧
    (create_col (create_col st d m).state d m).state = (create_col st d m).state := by
  simp [create_col, create_index_safe, hfresh]

/-- Witness for C1 at a concrete state, dimensionality and metric. -/
theorem provision_idempotent_witness :
    freshState.index = none ∧ (0 : Int) < 3 ∧
    ((create_col freshState 3 "cosine").creationCalls
      + (create_col (create_col freshState 3 "cosine").state 3 "cosine").creationCalls = 1 ∧
    (create_col (create_col freshState 3 "cosine").state 3 "cosine").result = .ok () ∧
    (create_col (create_col freshState 3 "cosine").state 3 "cosine").state
      = (create_col freshState 3 "cosine").state) :=
  ⟨rfl, by decide, provision_idempotent freshState 3 "cosine" rfl (by decide)⟩

/-- C3 counterexample: at dimensionality 0, `create_col` does not signal
InvalidDimensionality and does not withhold the creation call: it issues
exactly one index-creation call to the backend and returns successfully. -/
theorem create_col_nonpositive_counterexample :
    (create_col freshState 0 "cosine").creationCalls = 1 ∧
    (create_col freshState 0 "cosine").result = .ok () ∧
    (create_col freshState 0 "cosine").state.index
      = some (createColBody 0 "cosine") :=
  ⟨rfl, rfl, rfl⟩

/-- C3 amended: `create_col` performs no dimensionality validation. For
every d ≤ 0 (index absent), it issues one index-creation call carrying
dimension d in the body and signals no InvalidDimensionality error. -/
theorem create_col_no_dimensionality_validation (st : OSState) (d : Int)
    (m : String) (hfresh : st.index = none) (_hd : d ≤ 0) :
    (create_col st d m).creationCalls = 1 ∧
    (create_col st d m).result ≠ .error .invalidDimensionality ∧
    (create_col st d m).state.index = some (createColBody d m) := by
  simp [create_col, create_index_safe, hfresh]

/-- Witness for the amended C3 at dimensionality -2. -/
theorem create_col_no_dimensionality_validation_witness :
    freshState.index = none ∧ (-2 : Int) ≤ 0 ∧
    ((create_col freshState (-2) "l2").creationCalls = 1 ∧
    (create_col freshState (-2) "l2").result ≠ .error .invalidDimensionality ∧
    (create_col freshState (-2) "l2").state.index
      = some (createColBody (-2) "l2")) :=
  ⟨rfl, by decide, create_col_no_dimensionality_validation freshState (-2) "l2" rfl (by decide)⟩

/-- C5: the metric-to-space mapping is cosine to "cosinesimil", l2 to
"l2", dotProduct to "innerproduct", and for each of the three metrics
the chosen space identifier appears at
`mappings.properties.vector.method.space_type` of the index-creation
body that `create_col` sends. -/
theorem metric_space_mapping (d : Int) :
    spaceType "cosine" = "cosinesimil" ∧
    spaceType "l2" = "l2" ∧
    spaceType "dotProduct" = "innerproduct" ∧
    bodySpaceType (createColBody d "cosine") = some (.str "cosinesimil") ∧
    bodySpaceType (createColBody d "l2") = some (.str "l2") ∧
    bodySpaceType (createColBody d "dotProduct") = some (.str "innerproduct") :=
  ⟨rfl, rfl, rfl, rfl, rfl, rfl⟩

/-- C10: every metric string outside the mapping's keys, including the
spec's spelling "dot-product", silently falls back to the cosine space
"cosinesimil": `create_col` does not fail and creates the index with
that space. -/
theorem unknown_metric_fallback (st : OSState) (s : String) (d : Int)
    (hfresh : st.index = none)
    (hs : s ∉ ["cosine", "l2", "dotProduct"]) :
    spaceType s = "cosinesimil" ∧
    (create_col st d s).result = .ok () ∧
    (create_col st d s).creationCalls = 1 ∧
    (create_col st d s).state.index = some (index_body d "cosinesimil") := by
  simp only [List.mem_cons, List.not_mem_nil, or_false, not_or] at hs
  obtain ⟨h1, h2, h3⟩ := hs
  have e1 : (s == "cosine") = false := beq_eq_false_iff_ne.mpr h1
  have e2 : (s == "l2") = false := beq_eq_false_iff_ne.mpr h2
  have e3 : (s == "dotProduct") = false := beq_eq_false_iff_ne.mpr h3
  have hsp : spaceType s = "cosinesimil" := by
    simp [spaceType, distance_mapping, List.lookup, e1, e2, e3]
  refine ⟨hsp, ?_, ?_, ?_⟩ <;>
    simp [create_col, create_index_safe, createColBody, hfresh, hsp]

/-- Witness for C10 at the spec's spelling "dot-product". -/
theorem unknown_metric_fallback_witness :
    freshState.index = none ∧ "dot-product" ∉ ["cosine", "l2", "dotProduct"] ∧
    (spaceType "dot-product" = "cosinesimil" ∧
    (create_col freshState 3 "dot-product").result = .ok () ∧
    (create_col freshState 3 "dot-product").creationCalls = 1 ∧
    (create_col freshState 3 "dot-product").state.index
      = some (index_body 3 "cosinesimil")) :=
  ⟨rfl, by decide, unknown_metric_fallback freshState "dot-product" 3 rfl (by decide)⟩

/-- C2: for a well-formed bulk response (the `errors` flag is set exactly
when some item carries an error), `insert` succeeds exactly when no item
failed, and when any item failed it fails with the aggregated list of
exactly the failing items, each carried with its reason — other items in
the batch may have succeeded. -/
theorem insert_bulk_error_aggregation (name : String)
    (vectors : List (List Int)) (payloads : Option (List JSON))
    (ids : Option (List (Option String))) (resp : BulkResponse)
    (hwf : resp.errors = resp.items.any fun i => i.error.isSome) :
    ((insert name vectors payloads ids resp).result = .ok () ↔
      ∀ i ∈ resp.items, i.error = none) ∧
    ((∃ i ∈ resp.items, i.error.isSome) →
      (insert name vectors payloads ids resp).result
        = .error (.bulkWriteFailed (failingItems resp)) ∧
      ∀ i ∈ resp.items, i.error.isSome → i ∈ failingItems resp) := by
  constructor
  · cases ha : resp.items.any fun i => i.error.isSome with
    | true =>
      have : resp.errors = true := hwf.trans ha
      simp only [List.any_eq_true] at ha
      obtain ⟨i, hi, hie⟩ := ha
      simp only [insert, bulkInspect, this, if_true]
      constructor
      · intro h; exact absurd h (by simp)
      · intro h
        rw [h i hi] at hie
        exact absurd hie (by simp)
    | false =>
      have : resp.errors = false := hwf.trans ha
      simp only [List.any_eq_false] at ha
      simp only [insert, bulkInspect, this, if_false, Bool.false_eq_true]
      constructor
      · intro _ i hi
        exact Option.not_isSome_iff_eq_none.mp (ha i hi)
      · intro _; trivial
  · intro ⟨i, hi, hie⟩
    have : resp.errors = true := by
      rw [hwf, List.any_eq_true]; exact ⟨i, hi, hie⟩
    constructor
    · simp [insert, bulkInspect, this]
    · intro j hj hje
      exact List.mem_filter.mpr ⟨hj, hje⟩

/-- Witness for C2 on a response of one failing item next to one
successful item. -/
theorem insert_bulk_error_aggregation_witness :
    ((⟨true, [⟨some "a", some "mapper_parsing"⟩, ⟨some "b", none⟩]⟩ : BulkResponse).errors
      = (⟨true, [⟨some "a", some "mapper_parsing"⟩, ⟨some "b", none⟩]⟩ : BulkResponse).items.any fun i => i.error.isSome) ∧
    (((insert "mem0" [[1], [2]] none none
        ⟨true, [⟨some "a", some "mapper_parsing"⟩, ⟨some "b", none⟩]⟩).result = .ok () ↔
      ∀ i ∈ (⟨true, [⟨some "a", some "mapper_parsing"⟩, ⟨some "b", none⟩]⟩ : BulkResponse).items, i.error = none) ∧
    ((∃ i ∈ (⟨true, [⟨some "a", some "mapper_parsing"⟩, ⟨some "b", none⟩]⟩ : BulkResponse).items, i.error.isSome) →
      (insert "mem0" [[1], [2]] none none
        ⟨true, [⟨some "a", some "mapper_parsing"⟩, ⟨some "b", none⟩]⟩).result
        = .error (.bulkWriteFailed (failingItems
            ⟨true, [⟨some "a", some "mapper_parsing"⟩, ⟨some "b", none⟩]⟩)) ∧
      ∀ i ∈ (⟨true, [⟨some "a", some "mapper_parsing"⟩, ⟨some "b", none⟩]⟩ : BulkResponse).items,
        i.error.isSome → i ∈ failingItems
          ⟨true, [⟨some "a", some "mapper_parsing"⟩, ⟨some "b", none⟩]⟩)) :=
  ⟨by decide, insert_bulk_error_aggregation "mem0" [[1], [2]] none none
    ⟨true, [⟨some "a", some "mapper_parsing"⟩, ⟨some "b", none⟩]⟩ (by decide)⟩

/-- C6 counterexample: on the empty batch, `insert` does not signal
InvalidArgument: it issues one bulk request (with an empty action list)
and, for an error-free response, returns successfully. -/
theorem insert_empty_batch_counterexample :
    (insert "mem0" [] none none ⟨false, []⟩).bulkCalls = 1 ∧
    (insert "mem0" [] none none ⟨false, []⟩).body = [] ∧
    (insert "mem0" [] none none ⟨false, []⟩).result = .ok () :=
  ⟨rfl, rfl, rfl⟩

/-- C6 amended: for the empty batch, `insert` performs no client-side
validation: it issues exactly one bulk request whose action list is
empty, never signals InvalidArgument, and its outcome is exactly the
bulk-response inspection of whatever the backend answers. -/
theorem insert_empty_batch_passthrough (name : String)
    (payloads : Option (List JSON)) (ids : Option (List (Option String)))
    (resp : BulkResponse) :
    (insert name [] payloads ids resp).bulkCalls = 1 ∧
    (insert name [] payloads ids resp).body = [] ∧
    (insert name [] payloads ids resp).result ≠ .error .invalidArgument ∧
    (insert name [] payloads ids resp).result = bulkInspect resp := by
  refine ⟨rfl, ?_, ?_, rfl⟩
  · cases payloads <;> cases ids <;> simp [insert, insertActions, zip3]
  · cases hr : resp.errors <;> simp [insert, bulkInspect, hr]

/-- The search request body exactly as claim C4 states it: the plain knn
shape when no filter mapping is supplied, and the wrapped
bool/must/filter shape whenever one is supplied (`some`), with one
`term` condition per entry. Stated from the claim's words for
comparison against `searchBody`, which embeds the source. -/
def searchBodyClaimed (query : List Int) (limit : Int)
    (filters : Option (List (String × JSON))) : JSON :=
  match filters with
  | none => .obj [("size", .int limit), ("query", .obj [("knn", knnQuery query limit)])]
  | some fs =>
    .obj [("size", .int limit),
          ("query", .obj [("bool", .obj [
            ("must", .arr [.obj [("knn", knnQuery query limit)]]),
            ("filter", .arr (fs.map fun kv =>
              JSON.obj [("term", .obj [("payload." ++ kv.1, kv.2)])]))])])]

/-- C4 counterexample: when the supplied filter mapping is empty, the
request body the code builds is the plain knn shape, not the wrapped
bool/must/filter shape the claim requires for every supplied mapping. -/
theorem search_body_empty_filters_counterexample :
    searchBody [1] 5 (some []) ≠ searchBodyClaimed [1] 5 (some []) := by
  intro h
  have hq := congrArg (fun j => jlook j "query") h
  simp [searchBody, searchBodyClaimed, knnQuery, jlook, List.lookup] at hq

/-- C4 amended: `searchBody` builds the plain shape
`{"size": k, "query": {"knn": {"vector": {"vector": q, "k": k}}}}` when
the filter mapping is absent or empty, and the claimed wrapped
bool/must/filter shape (one exact-match `term` condition per entry,
combined by AND) when a non-empty filter mapping is supplied. -/
theorem search_body_shape (q : List Int) (k : Int)
    (fs : List (String × JSON)) (hfs : fs ≠ []) :
    searchBody q k none
      = .obj [("size", .int k), ("query", .obj [("knn", knnQuery q k)])] ∧
    searchBody q k (some [])
      = .obj [("size", .int k), ("query", .obj [("knn", knnQuery q k)])] ∧
    searchBody q k (some fs) = searchBodyClaimed q k (some fs) := by
  obtain ⟨a, as, rfl⟩ := List.exists_cons_of_ne_nil hfs
  exact ⟨rfl, rfl, rfl⟩

/-- Witness for C4 (amended) on a one-entry filter mapping. -/
theorem search_body_shape_witness :
    ([(("user" : String), JSON.str "u1")] ≠ []) ∧
    (searchBody [1, 2] 5 none
      = .obj [("size", .int 5), ("query", .obj [("knn", knnQuery [1, 2] 5)])] ∧
    searchBody [1, 2] 5 (some [])
      = .obj [("size", .int 5), ("query", .obj [("knn", knnQuery [1, 2] 5)])] ∧
    searchBody [1, 2] 5 (some [("user", JSON.str "u1")])
      = searchBodyClaimed [1, 2] 5 (some [("user", JSON.str "u1")])) :=
  ⟨by simp, search_body_shape [1, 2] 5 [("user", JSON.str "u1")] (by simp)⟩

/-- Looking an id up after filtering out every pair with that id finds
nothing. -/
theorem lookup_filter_ne (l : List (String × Doc)) (id : String) :
    (l.filter fun p => p.1 != id).lookup id = none := by
  induction l with
  | nil => rfl
  | cons p t ih =>
    obtain ⟨k, v⟩ := p
    by_cases hk : k = id
    · simp [List.filter, hk, ih]
    · have hb : (k != id) = true := bne_iff_ne.mpr hk
      have hb' : (id == k) = false := beq_eq_false_iff_ne.mpr (Ne.symm hk)
      simp [List.filter, List.lookup, hb, hb', ih]

/-- C7: for an id with no document in the index, `get` fails with the
wrapped error whose cause is the engine's not-found; in particular `get`
performed right after `delete` of the same id fails that way, whatever
state `delete` ran on. -/
theorem get_absent_not_found (st st' : OSState) (id : String)
    (habsent : st.docs.lookup id = none) :
    get st id = .error (.getFailed .notFound) ∧
    get (delete st' id).1 id = .error (.getFailed .notFound) := by
  constructor
  · simp [get, backendGet, habsent]
  · cases hl : st'.docs.lookup id with
    | none => simp [delete, hl, get, backendGet]
    | some d => simp [delete, hl, get, backendGet, lookup_filter_ne]

/-- Witness for C7: a fresh index for the absent-id part, and a one-record
index for the delete-then-get part. -/
theorem get_absent_not_found_witness :
    (freshState.docs.lookup "a" = none) ∧
    (get freshState "a" = .error (.getFailed .notFound) ∧
    get (delete ⟨none, [("a", ⟨.arr [.int 1], .obj []⟩)]⟩ "a").1 "a"
      = .error (.getFailed .notFound)) :=
  ⟨rfl, get_absent_not_found freshState ⟨none, [("a", ⟨.arr [.int 1], .obj []⟩)]⟩ "a" rfl⟩

/-- Overwriting the value of an id present in an association list makes
lookup of that id find the new value. -/
theorem lookup_map_overwrite (l : List (String × Doc)) (id : String) (d x : Doc)
    (h : l.lookup id = some d) :
    (l.map fun p => if p.1 == id then (p.1, x) else p).lookup id = some x := by
  induction l with
  | nil => simp [List.lookup] at h
  | cons p t ih =>
    obtain ⟨k, v⟩ := p
    by_cases hk : k = id
    · subst hk
      simp [List.lookup_cons]
    · have hb : (k == id) = false := beq_eq_false_iff_ne.mpr hk
      have hb' : (id == k) = false := beq_eq_false_iff_ne.mpr (Ne.symm hk)
      simp only [List.lookup_cons, hb'] at h
      simp only [List.map_cons, hb, Bool.false_eq_true, if_false, List.lookup_cons, hb']
      exact ih h

/-- C8: the update-request `doc` contains exactly the supplied fields —
a `vector` field exactly when a vector was supplied, a `payload` field
exactly when a payload was supplied, and nothing else — and after a
successful update of a present record each omitted field keeps its
stored value while each supplied field takes the supplied value. -/
theorem update_sends_exactly_supplied_fields (st : OSState) (id : String)
    (d : Doc) (v : Option (List Int)) (p : Option JSON)
    (hpresent : st.docs.lookup id = some d) :
    (((updateDocFields v p).lookup "vector").isSome ↔ v.isSome) ∧
    (((updateDocFields v p).lookup "payload").isSome ↔ p.isSome) ∧
    (∀ kv ∈ updateDocFields v p, kv.1 = "vector" ∨ kv.1 = "payload") ∧
    (update st id v p).2 = .ok () ∧
    (update st id v p).1.docs.lookup id = some
      { vector := match v with
          | some l => JSON.arr (l.map .int)
          | none => d.vector,
        payload := p.getD d.payload } := by
  have hov := lookup_map_overwrite st.docs id d
    ⟨((updateDocFields v p).lookup "vector").getD d.vector,
     ((updateDocFields v p).lookup "payload").getD d.payload⟩ hpresent
  cases v <;> cases p <;>
    simpa [updateDocFields, update, backendUpdate, hpresent, List.lookup] using hov

/-- Witness for C8: updating only the payload of a present record leaves
its vector unchanged. -/
theorem update_sends_exactly_supplied_fields_witness :
    ((⟨none, [("a", ⟨.arr [.int 1], .obj []⟩)]⟩ : OSState).docs.lookup "a"
      = some ⟨.arr [.int 1], .obj []⟩) ∧
    ((((updateDocFields none (some (.obj [("user", .str "u2")]))).lookup "vector").isSome
      ↔ (none : Option (List Int)).isSome) ∧
    (((updateDocFields none (some (.obj [("user", .str "u2")]))).lookup "payload").isSome
      ↔ (some (JSON.obj [("user", .str "u2")])).isSome) ∧
    (∀ kv ∈ updateDocFields none (some (.obj [("user", .str "u2")])),
      kv.1 = "vector" ∨ kv.1 = "payload") ∧
    (update ⟨none, [("a", ⟨.arr [.int 1], .obj []⟩)]⟩ "a" none
      (some (.obj [("user", .str "u2")]))).2 = .ok () ∧
    (update ⟨none, [("a", ⟨.arr [.int 1], .obj []⟩)]⟩ "a" none
      (some (.obj [("user", .str "u2")]))).1.docs.lookup "a" = some
      { vector := JSON.arr [.int 1],
        payload := (some (JSON.obj [("user", .str "u2")])).getD (.obj []) }) :=
  ⟨rfl, update_sends_exactly_supplied_fields
    ⟨none, [("a", ⟨.arr [.int 1], .obj []⟩)]⟩ "a" ⟨.arr [.int 1], .obj []⟩
    none (some (.obj [("user", .str "u2")])) rfl⟩

/-- C9 counterexample: two parts of the claim fail on the code. First,
`list` does not return a flat sequence with one element per matching
record: for a response of two hits the returned sequence has length 1,
because the per-record results are wrapped in a singleton outer list
(`return [results]`). Second, `list` does not set the request size
whenever a limit is given: for the given limit 0 the request body it
builds carries no size field at all (Python truthiness of
`if limit:`). -/
theorem list_counterexample :
    (listResults [⟨"a", 1, .obj []⟩, ⟨"b", 2, .obj []⟩]).length
      ≠ ([⟨"a", 1, .obj []⟩, ⟨"b", 2, .obj []⟩] : List Hit).length ∧
    listQuery none (some 0) = .obj [("query", .obj [("match_all", .obj [])])] ∧
    jlook (listQuery none (some 0)) "size" = none := by
  refine ⟨?_, rfl, rfl⟩
  intro h
  simp [listResults] at h

/-- C9 amended: `list` returns the per-record results wrapped in a
singleton outer list, with one inner element per matching record. The
request body it issues carries a match-all query when filters are
absent or empty and the AND (bool/must) of per-field equality term
conditions when they are given; the request size is set to the limit
when a non-zero limit is given and, independently of the filters, the
size field is omitted (engine default page size) when the limit is
absent or zero. -/
theorem list_shape (hits : List Hit) (fs : List (String × JSON)) (k : Int)
    (hfs : fs ≠ []) (hk : k ≠ 0) :
    listResults hits = [hits.map fun h =>
      OutputData.mk (some h.id) (some h.score) (some h.payload)] ∧
    (∀ inner ∈ listResults hits, inner.length = hits.length) ∧
    listQuery none none = .obj [("query", .obj [("match_all", .obj [])])] ∧
    listQuery (some []) none = .obj [("query", .obj [("match_all", .obj [])])] ∧
    listQuery none (some 0) = .obj [("query", .obj [("match_all", .obj [])])] ∧
    listQuery (some []) (some 0) = .obj [("query", .obj [("match_all", .obj [])])] ∧
    listQuery none (some k)
      = .obj [("query", .obj [("match_all", .obj [])]), ("size", .int k)] ∧
    listQuery (some []) (some k)
      = .obj [("query", .obj [("match_all", .obj [])]), ("size", .int k)] ∧
    listQuery (some fs) none = .obj [
      ("query", .obj [("bool", .obj [("must", .arr (fs.map fun kv =>
        JSON.obj [("term", .obj [("payload." ++ kv.1, kv.2)])]))])])] ∧
    listQuery (some fs) (some 0) = .obj [
      ("query", .obj [("bool", .obj [("must", .arr (fs.map fun kv =>
        JSON.obj [("term", .obj [("payload." ++ kv.1, kv.2)])]))])])] ∧
    listQuery (some fs) (some k) = .obj [
      ("query", .obj [("bool", .obj [("must", .arr (fs.map fun kv =>
        JSON.obj [("term", .obj [("payload." ++ kv.1, kv.2)])]))])]),
      ("size", .int k)] := by
  obtain ⟨a, as, rfl⟩ := List.exists_cons_of_ne_nil hfs
  have hbk : (k != 0) = true := bne_iff_ne.mpr hk
  refine ⟨rfl, ?_, rfl, rfl, rfl, rfl, ?_, ?_, rfl, rfl, ?_⟩
  · simp [listResults]
  · simp [listQuery, listQueryValue, hbk]
  · simp [listQuery, listQueryValue, hbk]
  · simp [listQuery, listQueryValue, hbk]

/-- Witness for C9 (amended) on a two-hit response, one filter entry and
limit 5. -/
theorem list_shape_witness :
    ([(("user" : String), JSON.str "u2")] ≠ []) ∧ ((5 : Int) ≠ 0) ∧
    (listResults [⟨"a", 1, .obj []⟩, ⟨"b", 2, .obj []⟩]
      = [([⟨"a", 1, .obj []⟩, ⟨"b", 2, .obj []⟩] : List Hit).map fun h =>
        OutputData.mk (some h.id) (some h.score) (some h.payload)] ∧
    (∀ inner ∈ listResults [⟨"a", 1, .obj []⟩, ⟨"b", 2, .obj []⟩],
      inner.length = ([⟨"a", 1, .obj []⟩, ⟨"b", 2, .obj []⟩] : List Hit).length) ∧
    listQuery none none = .obj [("query", .obj [("match_all", .obj [])])] ∧
    listQuery (some []) none = .obj [("query", .obj [("match_all", .obj [])])] ∧
    listQuery none (some 0) = .obj [("query", .obj [("match_all", .obj [])])] ∧
    listQuery (some []) (some 0) = .obj [("query", .obj [("match_all", .obj [])])] ∧
    listQuery none (some 5)
      = .obj [("query", .obj [("match_all", .obj [])]), ("size", .int 5)] ∧
    listQuery (some []) (some 5)
      = .obj [("query", .obj [("match_all", .obj [])]), ("size", .int 5)] ∧
    listQuery (some [("user", JSON.str "u2")]) none = .obj [
      ("query", .obj [("bool", .obj [("must", .arr ([(("user" : String), JSON.str "u2")].map fun kv =>
        JSON.obj [("term", .obj [("payload." ++ kv.1, kv.2)])]))])])] ∧
    listQuery (some [("user", JSON.str "u2")]) (some 0) = .obj [
      ("query", .obj [("bool", .obj [("must", .arr ([(("user" : String), JSON.str "u2")].map fun kv =>
        JSON.obj [("term", .obj [("payload." ++ kv.1, kv.2)])]))])])] ∧
    listQuery (some [("user", JSON.str "u2")]) (some 5) = .obj [
      ("query", .obj [("bool", .obj [("must", .arr ([(("user" : String), JSON.str "u2")].map fun kv =>
        JSON.obj [("term", .obj [("payload." ++ kv.1, kv.2)])]))])]),
      ("size", .int 5)]) :=
  ⟨by simp, by decide,
    list_shape [⟨"a", 1, .obj []⟩, ⟨"b", 2, .obj []⟩]
      [("user", JSON.str "u2")] 5 (by simp) (by decide)⟩

end Mem0.AWSOpenSearch
